import Mathlib

/-
Verification of the two utility scripts in this repository:
`scripts/powertouch.py` (an HTTP relay that forwards touch/power commands
to a fixed downstream device endpoint) and `scripts/spotless.py` (a
format-on-commit wrapper around `gradle spotlessApply`).

The scripts are shallowly embedded: side effects (downstream HTTP calls,
sleeps, prints, subprocess invocations, `git add`) become entries of an
event trace, and the outcome of each external call is supplied by an
oracle parameter, so that the control flow of the Python source is
mirrored exactly by pure Lean functions.
-/

namespace PowerTouch

/- Constants at the top of `powertouch.py`. -/

def BASE_URL : String := "http://192.168.7.1"

def USB_PORT : Nat := 6

/- `get_endpoint(path)` returns `f"{BASE_URL}/usb{USB_PORT}/{path}"`. -/

def get_endpoint (path : String) : String :=
  s!"{BASE_URL}/usb{USB_PORT}/{path}"

/-
Observable events of the relay: a downstream `urllib.request.urlopen`
call (with its timeout in seconds), a `time.sleep` (in milliseconds) and
a `print` to standard output.
-/

inductive Event where
  | urlopen (url : String) (timeoutSec : Nat)
  | sleepMs (ms : Nat)
  | print (msg : String)
  deriving DecidableEq, Repr

/--
Embedding of `send_request(url)`: opens `url` with `timeout=2`; the
oracle gives the outcome of the downstream call.  On failure the
exception is caught and an error line is printed; the function itself
returns normally (second component `.ok ()`) in both cases.
-/
def send_request (oracle : String → Except String Unit) (url : String) :
    List Event × Except String Unit :=
  match oracle url with
  | Except.ok _ => ([Event.urlopen url 2], Except.ok ())
  | Except.error e =>
      ([Event.urlopen url 2, Event.print s!"Error requesting {url}: {e}"], Except.ok ())

/-- Embedding of `PowerTouchHandler.short_touch`: touch on, 300 ms sleep, touch off. -/
def short_touch (oracle : String → Except String Unit) : List Event :=
  (send_request oracle (get_endpoint "touch/on")).1
    ++ [Event.sleepMs 300]
    ++ (send_request oracle (get_endpoint "touch/off")).1

/-- Embedding of `PowerTouchHandler.long_touch`: touch on, 3 s sleep, touch off. -/
def long_touch (oracle : String → Except String Unit) : List Event :=
  (send_request oracle (get_endpoint "touch/on")).1
    ++ [Event.sleepMs 3000]
    ++ (send_request oracle (get_endpoint "touch/off")).1

/-
The HTTP reply sent back to the relay's caller: `respond_ok` sends a
status, a Content-Type header and a body via `wfile.write`, while
`send_error` sends an error status with a message.
-/

inductive HttpReply where
  | response (status : Nat) (contentType : String) (body : String)
  | error (status : Nat) (message : String)
  deriving DecidableEq, Repr

/-- Embedding of `PowerTouchHandler.respond_ok`. -/
def respond_ok : HttpReply :=
  HttpReply.response 200 "application/json" "\x7b\"status\": \"OK\"\x7d"

/- Background work dispatched on a detached thread by the handler. -/

inductive Action where
  | spawnSend (url : String)
  | spawnShortTouch
  | spawnLongTouch
  deriving DecidableEq, Repr

/--
Embedding of `PowerTouchHandler.do_GET`: returns the reply written to
the caller together with the background actions dispatched (the thread
is started before `respond_ok` runs, but its work happens on a separate
thread, so the reply never depends on the downstream outcome).
-/
def do_GET (path : String) : HttpReply × List Action :=
  if path = "/powerOn" then
    (respond_ok, [Action.spawnSend (get_endpoint "power/on")])
  else if path = "/powerOff" then
    (respond_ok, [Action.spawnSend (get_endpoint "power/off")])
  else if path = "/shortTouch" then
    (respond_ok, [Action.spawnShortTouch])
  else if path = "/longTouch" then
    (respond_ok, [Action.spawnLongTouch])
  else
    (HttpReply.error 404 "Not Found", [])

/-- Embedding of `PowerTouchHandler.do_POST`, which just calls `do_GET`. -/
def do_POST (path : String) : HttpReply × List Action :=
  do_GET path

/-- Trace produced by a dispatched background action, given the downstream oracle. -/
def run_action (oracle : String → Except String Unit) : Action → List Event
  | Action.spawnSend url => (send_request oracle url).1
  | Action.spawnShortTouch => short_touch oracle
  | Action.spawnLongTouch => long_touch oracle

/- Event classifiers used in the statements below. -/

def isDownstream : Event → Bool
  | Event.urlopen _ _ => true
  | Event.sleepMs _ => true
  | Event.print _ => false

def isUrlopen : Event → Bool
  | Event.urlopen _ _ => true
  | _ => false

def isPrint : Event → Bool
  | Event.print _ => true
  | _ => false

def exceptOk : Except String Unit → Bool
  | Except.ok _ => true
  | Except.error _ => false

/- Embedding of `get_ip`: a UDP socket is opened, `connect` and
`getsockname` are attempted (outcomes given by the two oracles), any
exception selects the loopback address, and the `finally` block closes
the socket on every path. -/

inductive SockEvent where
  | sockOpen
  | connect (host : String) (port : Nat)
  | getsockname
  | close
  deriving DecidableEq, Repr

def get_ip (connectR : Except String Unit) (socknameR : Except String String) :
    List SockEvent × String :=
  match connectR with
  | Except.error _ =>
      ([SockEvent.sockOpen, SockEvent.connect "10.255.255.255" 1, SockEvent.close],
        "127.0.0.1")
  | Except.ok _ =>
      match socknameR with
      | Except.ok ip =>
          ([SockEvent.sockOpen, SockEvent.connect "10.255.255.255" 1,
            SockEvent.getsockname, SockEvent.close], ip)
      | Except.error _ =>
          ([SockEvent.sockOpen, SockEvent.connect "10.255.255.255" 1,
            SockEvent.getsockname, SockEvent.close], "127.0.0.1")

end PowerTouch

namespace Spotless

/-- Embedding of the `platform.system()` check choosing the gradle wrapper path. -/
def gradleExec (systemName : String) : String :=
  if systemName = "Windows" then "./gradlew.bat" else "./gradlew"

/-- Whitespace characters removed by Python's `str.strip()` (ASCII range). -/
def pyIsSpace (c : Char) : Bool :=
  c = ' ' || c = '\t' || c = '\n' || c = '\r' || c = '\x0b' || c = '\x0c'

/-- Semantics of Python `str.strip()`: drop whitespace from both ends. -/
def pyStrip (s : String) : String :=
  String.mk (((s.data.dropWhile pyIsSpace).reverse.dropWhile pyIsSpace).reverse)

/-- Semantics of Python `str.split("\n")` on the character list. -/
def splitOnNewline : List Char → List (List Char)
  | [] => [[]]
  | c :: cs =>
      match splitOnNewline cs with
      | [] => if c = '\n' then [[], []] else [[c]]
      | h :: t => if c = '\n' then [] :: h :: t else (c :: h) :: t

/-- Semantics of Python `s.endswith(suffixStr)`: suffix test on characters. -/
def pyEndsWith (s suffixStr : String) : Bool :=
  List.isSuffixOf suffixStr.data s.data

/--
Embedding of
`staged_files = result.stdout.strip().split("\n") if result.stdout.strip() else []`:
the captured stdout of the `git diff` subprocess, stripped and split on
newlines, or the empty list when the stripped output is empty.
-/
def staged_files (stdout : String) : List String :=
  let t := pyStrip stdout
  if t = "" then [] else (splitOnNewline t.data).map String.mk

/-- Embedding of `f.endswith((".java", ".kt", ".kts"))`. -/
def isFormattable (f : String) : Bool :=
  pyEndsWith f ".java" || pyEndsWith f ".kt" || pyEndsWith f ".kts"

/-- Embedding of the extension filter producing `formattable_files`. -/
def formattable_files (staged : List String) : List String :=
  staged.filter isFormattable

/-
Observable events of the wrapper: the `git diff` subprocess, prints,
the gradle `spotlessApply` subprocess, and per-file `git add`
subprocesses.
-/

inductive SpotEvent where
  | runGitDiff (args : List String)
  | print (msg : String)
  | runGradle (args : List String)
  | gitAdd (file : String)
  deriving DecidableEq, Repr

/--
Embedding of the whole top-level flow of `spotless.py`.  The result is
the event trace together with the process exit code (`sys.exit(0)` on
the skip path, `sys.exit(process.returncode)` when the formatter fails,
and falling off the end — exit code 0 — after the re-add loop).

The parameters `gitDiffRet` (exit status of the `git diff` subprocess)
and `gitAddRet` (exit status of each `git add` subprocess) are received
but never inspected, exactly as in the source, where neither
`result.returncode` nor the return value of the `git add`
`subprocess.run` calls is ever read.
-/
def spotless_main (systemName gitDiffStdout : String) (gitDiffRet : Int)
    (formatterRet : Int) (gitAddRet : String → Int) : List SpotEvent × Int :=
  let gitDiffEvents :=
    [SpotEvent.runGitDiff ["git", "diff", "--cached", "--name-only", "--diff-filter=ACMR"]]
  let fmt := formattable_files (staged_files gitDiffStdout)
  if fmt = [] then
    (gitDiffEvents
      ++ [SpotEvent.print "No Java/Kotlin files staged for commit, skipping Spotless."], 0)
  else
    let gradleEvents :=
      [SpotEvent.runGradle
        [gradleExec systemName, "spotlessApply",
          "-PspotlessIdeHook=" ++ String.intercalate "," fmt]]
    if formatterRet ≠ 0 then
      (gitDiffEvents ++ gradleEvents, formatterRet)
    else
      (gitDiffEvents ++ gradleEvents ++ fmt.map SpotEvent.gitAdd, 0)

/-- Files passed to `git add` in a trace, in order. -/
def gitAddsOf (tr : List SpotEvent) : List String :=
  tr.filterMap fun e =>
    match e with
    | SpotEvent.gitAdd f => some f
    | _ => none

/-- Whether a trace contains a gradle invocation. -/
def hasGradle (tr : List SpotEvent) : Bool :=
  tr.any fun e =>
    match e with
    | SpotEvent.runGradle _ => true
    | _ => false

end Spotless

namespace PowerTouch

/--
Claim C1: for each of the four known paths /powerOn, /powerOff,
/shortTouch and /longTouch, both a GET and a POST make the relay respond
with status 200, Content-Type application/json and the exact literal
body `\x7b"status": "OK"\x7d`; the reply is built before the background
thread runs and does not depend on any downstream outcome.
-/
theorem known_paths_respond_ok :
    (do_GET "/powerOn").1 = HttpReply.response 200 "application/json" "\x7b\"status\": \"OK\"\x7d"
    ∧ (do_GET "/powerOff").1 = HttpReply.response 200 "application/json" "\x7b\"status\": \"OK\"\x7d"
    ∧ (do_GET "/shortTouch").1 = HttpReply.response 200 "application/json" "\x7b\"status\": \"OK\"\x7d"
    ∧ (do_GET "/longTouch").1 = HttpReply.response 200 "application/json" "\x7b\"status\": \"OK\"\x7d"
    ∧ (do_POST "/powerOn").1 = HttpReply.response 200 "application/json" "\x7b\"status\": \"OK\"\x7d"
    ∧ (do_POST "/powerOff").1 = HttpReply.response 200 "application/json" "\x7b\"status\": \"OK\"\x7d"
    ∧ (do_POST "/shortTouch").1 = HttpReply.response 200 "application/json" "\x7b\"status\": \"OK\"\x7d"
    ∧ (do_POST "/longTouch").1 = HttpReply.response 200 "application/json" "\x7b\"status\": \"OK\"\x7d" := by
  refine ⟨?_, ?_, ?_, ?_, ?_, ?_, ?_, ?_⟩ <;> rfl

/--
Claim C2: the shortTouch background work is exactly a downstream call to
.../touch/on, a 300 ms wait, then a downstream call to .../touch/off,
and longTouch is the same with a 3000 ms wait; in both traces touch/on
strictly precedes touch/off and no further downstream call or sleep
occurs (only error prints may be interleaved).
-/
theorem touch_sequences (oracle : String → Except String Unit) :
    (short_touch oracle).filter isDownstream
        = [Event.urlopen (get_endpoint "touch/on") 2, Event.sleepMs 300,
           Event.urlopen (get_endpoint "touch/off") 2]
    ∧ (long_touch oracle).filter isDownstream
        = [Event.urlopen (get_endpoint "touch/on") 2, Event.sleepMs 3000,
           Event.urlopen (get_endpoint "touch/off") 2] := by
  refine ⟨?_, ?_⟩ <;>
    · simp only [short_touch, long_touch, send_request]
      cases oracle (get_endpoint "touch/on") <;>
        cases oracle (get_endpoint "touch/off") <;>
          simp [isDownstream]

/--
Claim C5: send_request never propagates an exception to its caller —
for every oracle outcome it returns normally; it makes exactly one
downstream call, to the given url with a 2 second timeout; and it prints
an error line precisely when the downstream call failed.
-/
theorem send_request_never_raises (oracle : String → Except String Unit) (url : String) :
    (send_request oracle url).2 = Except.ok ()
    ∧ (send_request oracle url).1.filter isUrlopen = [Event.urlopen url 2]
    ∧ (send_request oracle url).1.any isPrint = !(exceptOk (oracle url)) := by
  cases h : oracle url <;> simp [send_request, h, isUrlopen, isPrint, exceptOk]

/--
Claim C6: for every request path, known or unknown, do_POST produces
exactly the same reply and the same dispatched background actions as
do_GET on that path (the source's do_POST simply calls do_GET).
-/
theorem post_identical_to_get (path : String) :
    do_POST path = do_GET path := rfl

/--
Claim C8: for every path other than the four known ones, the relay
answers 404 Not Found and dispatches no background action, for GET and
POST alike.
-/
theorem unknown_path_404 (path : String)
    (h1 : path ≠ "/powerOn") (h2 : path ≠ "/powerOff")
    (h3 : path ≠ "/shortTouch") (h4 : path ≠ "/longTouch") :
    do_GET path = (HttpReply.error 404 "Not Found", [])
    ∧ do_POST path = (HttpReply.error 404 "Not Found", []) := by
  simp [do_GET, do_POST, h1, h2, h3, h4]

/-- Witness for claim C8 at the concrete unknown path /unknown. -/
theorem unknown_path_404_witness :
    do_GET "/unknown" = (HttpReply.error 404 "Not Found", [])
    ∧ do_POST "/unknown" = (HttpReply.error 404 "Not Found", []) :=
  unknown_path_404 "/unknown" (by decide) (by decide) (by decide) (by decide)

/--
Claim C9: get_ip opens a UDP socket, attempts a no-send connect to
('10.255.255.255', 1) followed by getsockname; the returned address is
the socket's local address when both steps succeed and '127.0.0.1' as
soon as either raises; and on every path the socket is closed before
returning (the trace ends with close).
-/
theorem get_ip_spec (connectR : Except String Unit) (socknameR : Except String String) :
    (get_ip connectR socknameR).1.getLast? = some SockEvent.close
    ∧ (get_ip connectR socknameR).1.head? = some SockEvent.sockOpen
    ∧ SockEvent.connect "10.255.255.255" 1 ∈ (get_ip connectR socknameR).1
    ∧ (get_ip connectR socknameR).2
        = (match connectR, socknameR with
            | Except.ok _, Except.ok ip => ip
            | _, _ => "127.0.0.1") := by
  cases connectR <;> cases socknameR <;> simp [get_ip]

end PowerTouch

namespace Spotless

theorem gitAddsOf_append (a b : List SpotEvent) :
    gitAddsOf (a ++ b) = gitAddsOf a ++ gitAddsOf b := by
  simp [gitAddsOf]

theorem gitAddsOf_map_gitAdd (l : List String) :
    gitAddsOf (l.map SpotEvent.gitAdd) = l := by
  induction l with
  | nil => rfl
  | cons x xs ih => simpa [gitAddsOf, List.filterMap_cons] using ih

theorem count_gitAdd (tr : List SpotEvent) (f : String) :
    tr.count (SpotEvent.gitAdd f) = (gitAddsOf tr).count f := by
  induction tr with
  | nil => rfl
  | cons e t ih =>
      cases e <;> simp [gitAddsOf, List.filterMap_cons, List.count_cons, ih]

theorem mem_gitAddsOf (tr : List SpotEvent) (f : String) :
    f ∈ gitAddsOf tr ↔ SpotEvent.gitAdd f ∈ tr := by
  constructor
  · intro h
    rcases List.mem_filterMap.mp h with ⟨e, he, hm⟩
    cases e <;> simp_all
  · intro h
    exact List.mem_filterMap.mpr ⟨SpotEvent.gitAdd f, h, rfl⟩

/--
Claim C7: when no staged file ends in .java, .kt or .kts (including an
empty staged list), the wrapper prints the skip message and exits 0,
invoking no formatter and running no git add: the whole trace is just
the git diff call and the skip print.
-/
theorem no_formattable_skips (systemName gitDiffStdout : String)
    (gitDiffRet formatterRet : Int) (gitAddRet : String → Int)
    (h : formattable_files (staged_files gitDiffStdout) = []) :
    spotless_main systemName gitDiffStdout gitDiffRet formatterRet gitAddRet
      = ([SpotEvent.runGitDiff ["git", "diff", "--cached", "--name-only", "--diff-filter=ACMR"],
          SpotEvent.print "No Java/Kotlin files staged for commit, skipping Spotless."], 0) := by
  simp [spotless_main, h]

/-- Witness for claim C7 at a staged list with no formattable file. -/
theorem no_formattable_skips_witness :
    spotless_main "Linux" "README.md\ndocs/index.html" 0 1 (fun _ => 0)
      = ([SpotEvent.runGitDiff ["git", "diff", "--cached", "--name-only", "--diff-filter=ACMR"],
          SpotEvent.print "No Java/Kotlin files staged for commit, skipping Spotless."], 0) :=
  no_formattable_skips "Linux" "README.md\ndocs/index.html" 0 1 (fun _ => 0) (by decide)

/--
Claim C3: when the formatter was invoked (some formattable file is
staged) and returns a non-zero exit code, the wrapper exits with that
same code and runs no git add at all.
-/
theorem formatter_failure_propagates (systemName gitDiffStdout : String)
    (gitDiffRet formatterRet : Int) (gitAddRet : String → Int)
    (hfmt : formattable_files (staged_files gitDiffStdout) ≠ [])
    (hret : formatterRet ≠ 0) :
    (spotless_main systemName gitDiffStdout gitDiffRet formatterRet gitAddRet).2 = formatterRet
    ∧ gitAddsOf (spotless_main systemName gitDiffStdout gitDiffRet formatterRet gitAddRet).1
        = [] := by
  simp [spotless_main, hfmt, hret, gitAddsOf]

/-- Witness for claim C3: one staged java file, formatter exits 2. -/
theorem formatter_failure_propagates_witness :
    (spotless_main "Linux" "A.java" 0 2 (fun _ => 0)).2 = 2
    ∧ gitAddsOf (spotless_main "Linux" "A.java" 0 2 (fun _ => 0)).1 = [] :=
  formatter_failure_propagates "Linux" "A.java" 0 2 (fun _ => 0) (by decide) (by decide)

/--
Claim C4: when the formatter succeeds, the files passed to git add are
exactly the filtered formattable list, in order; each originally staged
formattable file is re-added exactly once (staged lists from git diff
carry no duplicates), and no non-formattable file is ever re-added.
-/
theorem formatter_success_readds (systemName gitDiffStdout : String)
    (gitDiffRet : Int) (gitAddRet : String → Int)
    (hnd : (staged_files gitDiffStdout).Nodup) :
    gitAddsOf (spotless_main systemName gitDiffStdout gitDiffRet 0 gitAddRet).1
      = formattable_files (staged_files gitDiffStdout)
    ∧ (∀ f ∈ staged_files gitDiffStdout, isFormattable f = true →
        ((spotless_main systemName gitDiffStdout gitDiffRet 0 gitAddRet).1).count
          (SpotEvent.gitAdd f) = 1)
    ∧ (∀ f, isFormattable f = false →
        SpotEvent.gitAdd f ∉ (spotless_main systemName gitDiffStdout gitDiffRet 0 gitAddRet).1) := by
  have hadds : gitAddsOf (spotless_main systemName gitDiffStdout gitDiffRet 0 gitAddRet).1
      = formattable_files (staged_files gitDiffStdout) := by
    by_cases hfmt : formattable_files (staged_files gitDiffStdout) = []
    · simp [spotless_main, hfmt, gitAddsOf]
    · have htr : (spotless_main systemName gitDiffStdout gitDiffRet 0 gitAddRet).1
          = [SpotEvent.runGitDiff ["git", "diff", "--cached", "--name-only", "--diff-filter=ACMR"]]
            ++ [SpotEvent.runGradle [gradleExec systemName, "spotlessApply",
                "-PspotlessIdeHook="
                  ++ String.intercalate "," (formattable_files (staged_files gitDiffStdout))]]
            ++ (formattable_files (staged_files gitDiffStdout)).map SpotEvent.gitAdd := by
        simp [spotless_main, hfmt]
      rw [htr, gitAddsOf_append, gitAddsOf_append, gitAddsOf_map_gitAdd]
      rfl
  refine ⟨hadds, ?_, ?_⟩
  · intro f hf hform
    have hmem : f ∈ formattable_files (staged_files gitDiffStdout) :=
      List.mem_filter.mpr ⟨hf, hform⟩
    have hndf : (formattable_files (staged_files gitDiffStdout)).Nodup :=
      hnd.filter _
    rw [count_gitAdd, hadds]
    exact List.count_eq_one_of_mem hndf hmem
  · intro f hform hmem
    have : f ∈ formattable_files (staged_files gitDiffStdout) := by
      rw [← hadds]
      exact (mem_gitAddsOf _ f).mpr hmem
    exact absurd (List.of_mem_filter this) (by simp [hform])

/-- Witness for claim C4: a staged list mixing formattable and other files. -/
theorem formatter_success_readds_witness :
    gitAddsOf (spotless_main "Linux" "A.java\nB.kt\nREADME.md" 0 0 (fun _ => 0)).1
      = formattable_files (staged_files "A.java\nB.kt\nREADME.md") :=
  (formatter_success_readds "Linux" "A.java\nB.kt\nREADME.md" 0 (fun _ => 0) (by decide)).1

/--
Claim C10: the wrapper never inspects the exit status of any git
subprocess — the whole outcome is unchanged under arbitrary git diff and
git add exit codes; empty git diff output (as a failed git diff
produces) takes the skip path with exit 0; and after a successful
formatter run the wrapper exits 0 whatever the git add results.
-/
theorem git_exit_codes_ignored (systemName gitDiffStdout : String)
    (r r' formatterRet : Int) (a a' : String → Int) :
    spotless_main systemName gitDiffStdout r formatterRet a
      = spotless_main systemName gitDiffStdout r' formatterRet a'
    ∧ spotless_main systemName "" r formatterRet a
        = ([SpotEvent.runGitDiff ["git", "diff", "--cached", "--name-only", "--diff-filter=ACMR"],
            SpotEvent.print "No Java/Kotlin files staged for commit, skipping Spotless."], 0)
    ∧ (spotless_main systemName gitDiffStdout r 0 a).2 = 0 := by
  have h0 : formattable_files (staged_files "") = [] := by decide
  refine ⟨rfl, ?_, ?_⟩
  · simp [spotless_main, h0]
  · by_cases hfmt : formattable_files (staged_files gitDiffStdout) = [] <;>
      simp [spotless_main, hfmt]

end Spotless
